import Mathlib

/-!
Verification of the DNS monitor worker (`src/index.ts`) against its
natural-language specification.

The embedding below translates the worker's dampening logic
(`shouldSendDNSChangeNotification`, `updateRecentIPTracking`), its
per-domain observation tick (`checkDomain`) and the command handlers
(`handleAddDomain`, `handleRemoveDomain`, the clear branch of
`handleDampening`) into executable Lean definitions.

Conventions of the embedding:
* Wall-clock instants and millisecond durations are `Int` (JavaScript
  `Date.now()` arithmetic, which may go negative in differences).
* DNS TTLs are `Nat` (DNS TTLs are unsigned integers).
* The KV store slice relevant to one domain is a record of `Option`s:
  `none` models an absent key (KV `get` returning `null`).
* JavaScript string operations are re-implemented structurally over
  `List Char` so that concrete runs reduce inside the kernel; on the
  ASCII data handled by the worker (IPv4 strings, domain names, SOA
  fields) they agree with the JavaScript semantics: default `sort()`
  compares code units, `split` on a one-character separator,
  `join`, `toLowerCase`, and `includes`.
-/

namespace DNSBot

/-- Code-unit comparison of two character lists, as used by the default
JavaScript `Array.prototype.sort` comparator on ASCII strings. -/
def strLeData : List Char → List Char → Bool
  | [], _ => true
  | _ :: _, [] => false
  | a :: as, b :: bs =>
    if a.toNat < b.toNat then true
    else if b.toNat < a.toNat then false
    else strLeData as bs

/-- `strLe a b` is true when `a` sorts no later than `b` under the
JavaScript default string comparator. -/
def strLe (a b : String) : Bool :=
  strLeData a.data b.data

/-- Insert a string into a list that is already sorted by `strLe`. -/
def insertIP (x : String) : List String → List String
  | [] => [x]
  | y :: ys => if strLe x y then x :: y :: ys else y :: insertIP x ys

/-- `ips.sort()` from the source: sort a list of strings by the default
JavaScript comparator.  Equal strings are identical values, so any
comparison sort computes the same list as the engine's sort. -/
def sortIPs (ips : List String) : List String :=
  ips.foldr insertIP []

/-- `list.join(sep)` from JavaScript. -/
def joinWith (sep : String) : List String → String
  | [] => ""
  | [x] => x
  | x :: xs => x ++ sep ++ joinWith sep xs

/-- Split a character list at every occurrence of the character `c`;
accumulator-based so that it reduces in the kernel. -/
def splitCharAux (c : Char) : List Char → List Char → List (List Char)
  | [], acc => [acc.reverse]
  | x :: xs, acc =>
    if x = c then acc.reverse :: splitCharAux c xs []
    else splitCharAux c xs (x :: acc)

/-- `s.split(c)` from JavaScript for a one-character separator `c`
(the source only ever splits on `","`, `" "` and `"."`). -/
def splitOnChar (c : Char) (s : String) : List String :=
  (splitCharAux c s.data []).map (fun l => ⟨l⟩)

/-- Whether `needle` is an initial segment of `hay`. -/
def isPrefixList : List Char → List Char → Bool
  | [], _ => true
  | _ :: _, [] => false
  | a :: as, b :: bs => (a = b) && isPrefixList as bs

/-- `hay.includes(needle)` from JavaScript. -/
def containsSub (needle : List Char) : List Char → Bool
  | [] => needle.isEmpty
  | x :: xs => isPrefixList needle (x :: xs) || containsSub needle xs

/-- ASCII lower-casing of one character (`String.prototype.toLowerCase`
restricted to the ASCII range the worker handles). -/
def lowerChar (c : Char) : Char :=
  if 65 ≤ c.toNat ∧ c.toNat ≤ 90 then Char.ofNat (c.toNat + 32) else c

/-- `s.toLowerCase()` on ASCII strings. -/
def toLowerStr (s : String) : String :=
  ⟨s.data.map lowerChar⟩

/-- One entry of the `notify:<domain>:recent_ips` JSON array:
`{ips: string[], timestamp: number}`. -/
structure IPSetEntry where
  ips : List String
  timestamp : Int
deriving Repr, DecidableEq

/-- The TTL-based dampening period (in milliseconds) computed at the top
of `shouldSendDNSChangeNotification` (src/index.ts lines 331-341):
10 minutes for `ttl < 60`, 5 minutes for `ttl < 300`,
`max(ttl*2*1000, 2 min)` for `ttl < 900`, else `max(ttl*1000, 5 min)`. -/
def dampeningPeriodOfTTL (ttl : Nat) : Int :=
  if ttl < 60 then 10 * 60 * 1000
  else if ttl < 300 then 5 * 60 * 1000
  else if ttl < 900 then max ((ttl : Int) * 2 * 1000) (2 * 60 * 1000)
  else max ((ttl : Int) * 1000) (5 * 60 * 1000)

/-- `currentIPs.sort().join(',')`: the sorted-IP signature used for
oscillation detection. -/
def sortJoin (ips : List String) : String :=
  joinWith "," (sortIPs ips)

/-- The oscillation test of src/index.ts lines 354-360: some stored
recent IP set has the same sorted signature as the current set and is
less than 24 hours old, and more than one recent set is stored. -/
def oscillationDetected (recentIPSets : List IPSetEntry) (currentIPs : List String)
    (now : Int) : Bool :=
  (recentIPSets.any fun s =>
    (sortJoin s.ips == sortJoin currentIPs) && decide (now - s.timestamp < 24 * 60 * 60 * 1000))
  && decide (recentIPSets.length > 1)

/-- `updateRecentIPTracking` (src/index.ts lines 386-405): append the
current sorted IP set, drop entries older than 7 days, keep the last 10
(`slice(-10)`). -/
def updateRecentIPTracking (recentIPSets : List IPSetEntry) (currentIPs : List String)
    (timestamp : Int) : List IPSetEntry :=
  let pushed := recentIPSets ++ [⟨sortIPs currentIPs, timestamp⟩]
  let sevenDaysAgo := timestamp - 7 * 24 * 60 * 60 * 1000
  let kept := pushed.filter fun s => sevenDaysAgo < s.timestamp
  kept.drop (kept.length - 10)

/-- Result of one run of the dampening decision: whether to notify, the
new `notify:<domain>:last` value and the new `notify:<domain>:recent_ips`
array. -/
structure DampenResult where
  shouldNotify : Bool
  notifyLast : Option Int
  recentIPs : List IPSetEntry
deriving Repr, DecidableEq

/-- `shouldSendDNSChangeNotification` (src/index.ts lines 317-384) as a
pure state transformer.  `lastOpt` is the stored `notify:<domain>:last`
(absent reads as 0), `recentIPSets` the stored recent-IP history.  The
source first suppresses when `now - last` is below the TTL-based period,
then (when the current signature oscillates) below
`max(2 * period, 15 min)`; otherwise it writes `now` to the
last-notification key and reports `true`.  In every branch the
recent-IP history is updated. -/
def shouldSendDNSChangeNotification (lastOpt : Option Int) (recentIPSets : List IPSetEntry)
    (currentIPs : List String) (ttl : Nat) (now : Int) : DampenResult :=
  let lastNotifyTime := lastOpt.getD 0
  let dampeningPeriod := dampeningPeriodOfTTL ttl
  let timeSinceLastNotify := now - lastNotifyTime
  if timeSinceLastNotify < dampeningPeriod then
    ⟨false, lastOpt, updateRecentIPTracking recentIPSets currentIPs now⟩
  else
    let oscillationDampening := max (dampeningPeriod * 2) (15 * 60 * 1000)
    if oscillationDetected recentIPSets currentIPs now = true
        ∧ timeSinceLastNotify < oscillationDampening then
      ⟨false, lastOpt, updateRecentIPTracking recentIPSets currentIPs now⟩
    else
      ⟨true, some now, updateRecentIPTracking recentIPSets currentIPs now⟩

/-- The dampening period that effectively gates the notify decision:
the oscillation period `max(2 * base, 15 min)` when the oscillation test
fires, otherwise the TTL-based base period.  (Derived characterisation;
`shouldSendDNSChangeNotification` is proved to suppress exactly below
this value.) -/
def effectivePeriod (recentIPSets : List IPSetEntry) (currentIPs : List String)
    (ttl : Nat) (now : Int) : Int :=
  if oscillationDetected recentIPSets currentIPs now then
    max (dampeningPeriodOfTTL ttl * 2) (15 * 60 * 1000)
  else
    dampeningPeriodOfTTL ttl

/-- One DoH answer record (`DNSResponse.Answer[i]` of the source).  The
TypeScript interface declares `TTL: number`, but the runtime value comes
from JSON and the source guards it with `aRecords[0]?.TTL || 300`, so the
embedding keeps it optional. -/
structure DNSAnswer where
  name : String
  type : Nat
  TTL : Option Nat
  data : String
deriving Repr, DecidableEq

/-- The combined DoH response that `queryDNS` hands to `checkDomain`
(only the fields `checkDomain` reads). -/
structure DNSResponse where
  Status : Nat
  Answer : Option (List DNSAnswer)
  Comment : Option (List String)
deriving Repr, DecidableEq

/-- Embed type of the four `createEmbed` kinds of the source. -/
inductive NotifType where
  | error | warning | change | update
deriving Repr, DecidableEq

/-- A Discord notification, reduced to the fields the claims are about:
its embed kind and its title. -/
structure Notification where
  ntype : NotifType
  title : String
deriving Repr, DecidableEq

/-- The KV keys the worker stores for one domain:
`dns:<d>:state`, `dns:<d>:ips`, `dns:<d>:serial`, `notify:<d>:last`,
`notify:<d>:recent_ips`.  `none` is an absent key. -/
structure DomainKV where
  state : Option String
  ips : Option String
  serial : Option String
  notifyLast : Option Int
  recentIPs : Option (List IPSetEntry)
deriving Repr, DecidableEq

/-- A domain with no stored keys (never observed, never notified). -/
def emptyKV : DomainKV := ⟨none, none, none, none, none⟩

/-- `dnsData.Answer` with JavaScript `|| []` defaulting. -/
def answersOf (dns : DNSResponse) : List DNSAnswer :=
  dns.Answer.getD []

/-- `dnsData.Answer?.filter(a => a.type === 1) || []` — the A records. -/
def aRecordsOf (dns : DNSResponse) : List DNSAnswer :=
  (answersOf dns).filter fun a => a.type == 1

/-- `dnsData.Answer?.find(a => a.type === 6)` — the SOA record. -/
def soaRecordOf (dns : DNSResponse) : Option DNSAnswer :=
  (answersOf dns).find? fun a => a.type == 6

/-- `soaRecord?.data.split(" ") || []`. -/
def soaDataOf (dns : DNSResponse) : List String :=
  match soaRecordOf dns with
  | some r => splitOnChar ' ' r.data
  | none => []

/-- `soaData[2] || "unknown"` (JavaScript: an out-of-range index or an
empty string both fall back to `"unknown"`). -/
def serialOf (dns : DNSResponse) : String :=
  match (soaDataOf dns).get? 2 with
  | some s => if s == "" then "unknown" else s
  | none => "unknown"

/-- `dnsData.Comment?.some(c => c.includes("No Reachable Authority"))`
coerced to a boolean (an absent comment list is falsy). -/
def noAuthorityOf (dns : DNSResponse) : Bool :=
  (dns.Comment.getD []).any fun c =>
    containsSub "No Reachable Authority".data c.data

/-- `aRecords[0]?.TTL || 300`: the TTL fed to the dampening logic; an
empty record list, a missing TTL field and a zero TTL (all falsy) give
300. -/
def effectiveTTL (aRecords : List DNSAnswer) : Nat :=
  match aRecords.head? with
  | none => 300
  | some r =>
    match r.TTL with
    | none => 300
    | some t => if t == 0 then 300 else t

/-- The TTL `checkDomain` computes for a response. -/
def effectiveTTLOf (dns : DNSResponse) : Nat :=
  effectiveTTL (aRecordsOf dns)

/-- The sorted current A-record IPs of a response
(`aRecords.map(r => r.data)` followed by `currentIPs.sort()`). -/
def currentIPsOf (dns : DNSResponse) : List String :=
  sortIPs ((aRecordsOf dns).map fun a => a.data)

/-- `previousIPs ? previousIPs.split(",") : []` (an empty stored string
is falsy and yields the empty array). -/
def prevIPsArray (kv : DomainKV) : List String :=
  match kv.ips with
  | none => []
  | some s => if s == "" then [] else splitOnChar ',' s

/-- Truthiness test used by `isFirstTimeMonitoring`: a KV string is
falsy when the key is absent or holds the empty string. -/
def falsyOpt (o : Option String) : Bool :=
  match o with
  | none => true
  | some s => s == ""

/-- `!previousState && !previousIPs && !previousSerial` — no stored
state at all. -/
def isFirstTime (kv : DomainKV) : Bool :=
  falsyOpt kv.state && falsyOpt kv.ips && falsyOpt kv.serial

/-- `checkDomain` (src/index.ts lines 407-635) as a pure transition on
one domain's KV slice.  `res` is the outcome of `queryDNS`: `.error`
models the query throwing (transport failure), in which case the source
lands in the catch block, emits the `Error Monitoring DNS` embed and
touches no KV key.  Otherwise the source handles, in order: the
no-authority signal, an IP change (with first-seen silence and the
dampening gate), an SOA serial change, the dead first-seen fallback, and
the no-change case. -/
def checkDomain (kv : DomainKV) (res : Except String DNSResponse) (now : Int) :
    DomainKV × List Notification :=
  match res with
  | .error _ => (kv, [⟨NotifType.error, "Error Monitoring DNS"⟩])
  | .ok dns =>
    if noAuthorityOf dns then
      if kv.state ≠ some "no_authority" then
        ({ kv with state := some "no_authority" },
         [⟨NotifType.warning, "DNS Authority Unreachable"⟩])
      else (kv, [])
    else
      let serial := serialOf dns
      let currentIPs := currentIPsOf dns
      let first := isFirstTime kv
      if sortIPs (prevIPsArray kv) ≠ currentIPs then
        let kv1 := { kv with state := some "resolved",
                             ips := some (joinWith "," currentIPs),
                             serial := some serial }
        if first then (kv1, [])
        else
          let r := shouldSendDNSChangeNotification kv.notifyLast (kv.recentIPs.getD [])
                     currentIPs (effectiveTTLOf dns) now
          ({ kv1 with notifyLast := r.notifyLast, recentIPs := some r.recentIPs },
           if r.shouldNotify then [⟨NotifType.change, "DNS Change Detected"⟩] else [])
      else if kv.serial ≠ some serial then
        ({ kv with serial := some serial },
         if first then [] else [⟨NotifType.update, "DNS Zone Updated"⟩])
      else if first then
        ({ kv with state := some "resolved",
                   ips := some (joinWith "," currentIPs),
                   serial := some serial }, [])
      else (kv, [])

/-- The worker's reading of the stored last-notification instant:
`lastNotificationTime ? parseInt(lastNotificationTime) : 0`. -/
def readLastNotify (kv : DomainKV) : Int :=
  kv.notifyLast.getD 0

/-- The label regex of `isValidDomain`:
`[a-zA-Z0-9]([a-zA-Z0-9-]{0,61}[a-zA-Z0-9])?` — 1 to 63 characters,
alphanumeric or hyphen, starting and ending alphanumeric. -/
def isAlnumChar (c : Char) : Bool :=
  (65 ≤ c.toNat && c.toNat ≤ 90) || (97 ≤ c.toNat && c.toNat ≤ 122) ||
  (48 ≤ c.toNat && c.toNat ≤ 57)

/-- Whether one dot-separated label matches the label regex. -/
def validLabel (s : String) : Bool :=
  match s.data with
  | [] => false
  | c :: cs =>
    decide (s.length ≤ 63) && isAlnumChar c &&
    isAlnumChar ((c :: cs).getLast (List.cons_ne_nil c cs)) &&
    (c :: cs).all (fun x => isAlnumChar x || x == '-')

/-- `isValidDomain` (src/index.ts lines 858-861): the whole string
matches the anchored label regex and is at most 253 characters. -/
def isValidDomain (domain : String) : Bool :=
  ((splitOnChar '.' domain).all validLabel) && decide (domain.length ≤ 253)

/-- The response classes `handleAddDomain` can produce. -/
inductive AddResult where
  | noDomain | invalid | duplicate | added
deriving Repr, DecidableEq

/-- `handleAddDomain` (src/index.ts lines 1255-1340) restricted to its
effect on the stored dynamic domain list (`dynamic:domains`).  The
duplicate branch performs no KV write at all in the source; the added
branch pushes the lower-cased domain and saves the list. -/
def handleAddDomain (domains : List String) (input : Option String) :
    AddResult × List String :=
  match input with
  | none => (AddResult.noDomain, domains)
  | some s =>
    let domain := toLowerStr s
    if domain == "" then (AddResult.noDomain, domains)
    else if !isValidDomain domain then (AddResult.invalid, domains)
    else if domains.contains domain then (AddResult.duplicate, domains)
    else (AddResult.added, domains ++ [domain])

/-- The response classes `handleRemoveDomain` can produce. -/
inductive RemoveResult where
  | noDomain | notFound | removed
deriving Repr, DecidableEq

/-- `handleRemoveDomain` (src/index.ts lines 1342-1418): its effect on
the dynamic domain list and on the removed domain's KV slice.  On
success the source splices the domain out of the list and deletes
`dns:<d>:ips`, `dns:<d>:serial` and `dns:<d>:state` — and nothing
else. -/
def handleRemoveDomain (domains : List String) (kv : DomainKV) (input : Option String) :
    RemoveResult × List String × DomainKV :=
  match input with
  | none => (RemoveResult.noDomain, domains, kv)
  | some s =>
    let domain := toLowerStr s
    if domain == "" then (RemoveResult.noDomain, domains, kv)
    else if !(domains.contains domain) then (RemoveResult.notFound, domains, kv)
    else (RemoveResult.removed, domains.erase domain,
          { kv with state := none, ips := none, serial := none })

/-- The `clear` branch of `handleDampening` (src/index.ts lines
1959-1962): delete `notify:<d>:last` and `notify:<d>:recent_ips`. -/
def handleDampeningClear (kv : DomainKV) : DomainKV :=
  { kv with notifyLast := none, recentIPs := none }

/-- Every TTL-based base dampening period is at least 5 minutes
(300000 ms): the first two branches are 10 and 5 minutes, the third is
at least `2 * 300` seconds, the fourth at least `900` seconds. -/
theorem dampeningPeriodOfTTL_lb (ttl : Nat) : 300000 ≤ dampeningPeriodOfTTL ttl := by
  unfold dampeningPeriodOfTTL
  split_ifs with h1 h2 h3 <;> omega

/-- Characterisation of the dampening decision: the source suppresses
exactly when `now - last` is below `effectivePeriod`, it never moves the
last-notification key on suppression, writes `now` to it on emission,
and updates the recent-IP history in both cases. -/
theorem shouldSend_characterisation (lastOpt : Option Int) (recentIPSets : List IPSetEntry)
    (currentIPs : List String) (ttl : Nat) (now : Int) :
    shouldSendDNSChangeNotification lastOpt recentIPSets currentIPs ttl now =
      if now - lastOpt.getD 0 < effectivePeriod recentIPSets currentIPs ttl now then
        ⟨false, lastOpt, updateRecentIPTracking recentIPSets currentIPs now⟩
      else
        ⟨true, some now, updateRecentIPTracking recentIPSets currentIPs now⟩ := by
  have hb := dampeningPeriodOfTTL_lb ttl
  have h1 : dampeningPeriodOfTTL ttl * 2 ≤
      max (dampeningPeriodOfTTL ttl * 2) (15 * 60 * 1000 : Int) := le_max_left _ _
  have h2 : (15 * 60 * 1000 : Int) ≤
      max (dampeningPeriodOfTTL ttl * 2) (15 * 60 * 1000 : Int) := le_max_right _ _
  unfold shouldSendDNSChangeNotification effectivePeriod
  dsimp only
  cases hosc : oscillationDetected recentIPSets currentIPs now <;>
    (simp only [Bool.false_eq_true, false_and, eq_self_iff_true, true_and, if_false, if_true]
     try (split_ifs <;> first | rfl | omega))

/-- The dampening decision never moves the stored last-notification
instant backwards: on suppression it is untouched, on emission it is set
to `now`, which then exceeds the old value by at least the base
period. -/
theorem shouldSend_last_mono (lastOpt : Option Int) (recentIPSets : List IPSetEntry)
    (currentIPs : List String) (ttl : Nat) (now : Int) :
    lastOpt.getD 0 ≤
      (shouldSendDNSChangeNotification lastOpt recentIPSets currentIPs ttl now).notifyLast.getD 0 := by
  have hb := dampeningPeriodOfTTL_lb ttl
  unfold shouldSendDNSChangeNotification
  dsimp only
  split_ifs with h1 h2 <;> simp only [Option.getD_some] <;> omega

/-- C1 counterexample: the claim says a TTL below 60 s yields a
20-minute base dampening period; the source (src/index.ts line 334)
yields 10 minutes at TTL = 59. -/
theorem base_dampening_counterexample :
    dampeningPeriodOfTTL 59 = 600000 ∧ dampeningPeriodOfTTL 59 ≠ 20 * 60 * 1000 := by decide

/-- C1 amended: the base dampening period is 10 minutes for TTL < 60,
5 minutes for 60 ≤ TTL < 300, max(2·TTL, 2 min) for 300 ≤ TTL < 900 and
max(1·TTL, 5 min) for TTL ≥ 900, with transitions exactly at TTL = 60,
300 and 900. -/
theorem base_dampening_thresholds (ttl : Nat) :
    (ttl < 60 → dampeningPeriodOfTTL ttl = 10 * 60 * 1000) ∧
    (60 ≤ ttl → ttl < 300 → dampeningPeriodOfTTL ttl = 5 * 60 * 1000) ∧
    (300 ≤ ttl → ttl < 900 →
      dampeningPeriodOfTTL ttl = max ((ttl : Int) * 2 * 1000) (2 * 60 * 1000)) ∧
    (900 ≤ ttl → dampeningPeriodOfTTL ttl = max ((ttl : Int) * 1000) (5 * 60 * 1000)) := by
  refine ⟨fun h => ?_, fun h1 h2 => ?_, fun h1 h2 => ?_, fun h => ?_⟩
  · rw [dampeningPeriodOfTTL, if_pos h]
  · rw [dampeningPeriodOfTTL, if_neg (by omega), if_pos h2]
  · rw [dampeningPeriodOfTTL, if_neg (by omega), if_neg (by omega), if_pos h2]
  · rw [dampeningPeriodOfTTL, if_neg (by omega), if_neg (by omega), if_neg (by omega)]

/-- Witness for `base_dampening_thresholds`, one instance per branch. -/
theorem base_dampening_thresholds_witness :
    dampeningPeriodOfTTL 59 = 10 * 60 * 1000 ∧
    dampeningPeriodOfTTL 60 = 5 * 60 * 1000 ∧
    dampeningPeriodOfTTL 300 = max ((300 : Int) * 2 * 1000) (2 * 60 * 1000) ∧
    dampeningPeriodOfTTL 900 = max ((900 : Int) * 1000) (5 * 60 * 1000) :=
  ⟨(base_dampening_thresholds 59).1 (by decide),
   (base_dampening_thresholds 60).2.1 (by decide) (by decide),
   (base_dampening_thresholds 300).2.2.1 (by decide) (by decide),
   (base_dampening_thresholds 900).2.2.2 (by decide)⟩

/-- C5 counterexample: the claim bounds the dampening period by 4 hours;
at TTL = 20000 s the source computes a 20000 s = 5.56 h period and, with
a notification 4.17 h ago, still suppresses. -/
theorem dampening_clamp_counterexample :
    dampeningPeriodOfTTL 20000 = 20000000 ∧
    ¬ dampeningPeriodOfTTL 20000 ≤ 4 * 60 * 60 * 1000 ∧
    (shouldSendDNSChangeNotification (some 0) [] ["1.2.3.4"] 20000 15000000).shouldNotify
      = false := by decide

/-- C5 amended: the period that gates suppression is always at least
5 minutes; there is no 4-hour upper clamp in the source. -/
theorem dampening_lower_bound (recentIPSets : List IPSetEntry) (currentIPs : List String)
    (ttl : Nat) (now : Int) :
    300000 ≤ effectivePeriod recentIPSets currentIPs ttl now := by
  have hb := dampeningPeriodOfTTL_lb ttl
  unfold effectivePeriod
  split
  · simp only [le_max_iff]; omega
  · exact hb

/-- C8: a transport failure of the DoH query (modelled as `.error`)
makes the tick emit exactly the `Error Monitoring DNS` notification and
leave every stored key of the domain untouched. -/
theorem transport_error_no_mutation (kv : DomainKV) (msg : String) (now : Int) :
    checkDomain kv (Except.error msg) now =
      (kv, [⟨NotifType.error, "Error Monitoring DNS"⟩]) := rfl

/-- C10: when the answer has no A records, or its first A record carries
no TTL, the dampening TTL defaults to 300 s, which lands in the
`300 ≤ TTL < 900` base branch (`max(2·TTL, 2 min)` = 10 minutes). -/
theorem missing_ttl_defaults (recs : List DNSAnswer)
    (h : (recs.head?.bind fun r => r.TTL) = none) :
    effectiveTTL recs = 300 ∧ 300 ≤ effectiveTTL recs ∧ effectiveTTL recs < 900 ∧
    dampeningPeriodOfTTL (effectiveTTL recs)
      = max ((300 : Int) * 2 * 1000) (2 * 60 * 1000) := by
  have h300 : effectiveTTL recs = 300 := by
    unfold effectiveTTL
    cases hr : recs.head? with
    | none => rfl
    | some r =>
      have hT : r.TTL = none := by rw [hr] at h; simpa using h
      simp [hT]
  refine ⟨h300, by omega, by omega, by rw [h300]; decide⟩

/-- Witness for `missing_ttl_defaults` at the empty record list. -/
theorem missing_ttl_defaults_witness :
    effectiveTTL [] = 300 ∧ 300 ≤ effectiveTTL [] ∧ effectiveTTL [] < 900 ∧
    dampeningPeriodOfTTL (effectiveTTL [])
      = max ((300 : Int) * 2 * 1000) (2 * 60 * 1000) :=
  missing_ttl_defaults [] rfl

/-- C6: on a change tick, if `now - lastNotificationAt` is below the
effective dampening period the decision is to suppress, the
last-notification key is left untouched and the recent-IP history is
still updated; otherwise the decision is to notify, the key is set to
`now` and the history is updated. -/
theorem notify_decision (lastOpt : Option Int) (recentIPSets : List IPSetEntry)
    (currentIPs : List String) (ttl : Nat) (now : Int) :
    shouldSendDNSChangeNotification lastOpt recentIPSets currentIPs ttl now =
      if now - lastOpt.getD 0 < effectivePeriod recentIPSets currentIPs ttl now then
        ⟨false, lastOpt, updateRecentIPTracking recentIPSets currentIPs now⟩
      else
        ⟨true, some now, updateRecentIPTracking recentIPSets currentIPs now⟩ :=
  shouldSend_characterisation lastOpt recentIPSets currentIPs ttl now

/-- C4 counterexample: the claim says an oscillating signature with no
CDN and no load balancer forces a fixed 30-minute period.  Here the
current set was seen 25 minutes ago (within 24 h), the history holds two
sets, TTL = 59 gives a 10-minute base, and the last notification was 25
minutes ago: under the claim (25 min < 30 min) the notification would be
suppressed, but the source notifies because its oscillation period is
`max(2·10 min, 15 min) = 20 min ≤ 25 min`. -/
theorem oscillation_override_counterexample :
    oscillationDetected [⟨["1.1.1.1"], 0⟩, ⟨["2.2.2.2"], 0⟩] ["1.1.1.1"] 1500000 = true ∧
    (shouldSendDNSChangeNotification (some 0) [⟨["1.1.1.1"], 0⟩, ⟨["2.2.2.2"], 0⟩]
      ["1.1.1.1"] 59 1500000).shouldNotify = true := by decide

/-- C4 amended: when the current sorted signature was seen in the recent
history within 24 h (and more than one set is stored), the period that
gates the decision is `max(2 × base, 15 min)` — a doubling of the
TTL-based period, not a fixed 2 h / 30 min value; the dampening path has
no CDN or load-balancer detection at all. -/
theorem oscillation_effective_period (lastOpt : Option Int) (recentIPSets : List IPSetEntry)
    (currentIPs : List String) (ttl : Nat) (now : Int)
    (hosc : oscillationDetected recentIPSets currentIPs now = true) :
    ((shouldSendDNSChangeNotification lastOpt recentIPSets currentIPs ttl now).shouldNotify
        = true) ↔
      max (dampeningPeriodOfTTL ttl * 2) (15 * 60 * 1000) ≤ now - lastOpt.getD 0 := by
  rw [shouldSend_characterisation]
  unfold effectivePeriod
  rw [if_pos hosc]
  split_ifs with h
  · constructor
    · intro hf; simp at hf
    · intro hM; exact absurd h (not_lt.mpr hM)
  · constructor
    · intro _; omega
    · intro _; rfl

/-- Witness for `oscillation_effective_period`: with the signature seen
33 minutes ago, base 10 minutes and the last notification 33 minutes
back, the oscillation gate `20 min ≤ 33 min` lets the notification
through. -/
theorem oscillation_effective_period_witness :
    (shouldSendDNSChangeNotification (some 0) [⟨["1.1.1.1"], 0⟩, ⟨["2.2.2.2"], 0⟩]
      ["1.1.1.1"] 59 2000000).shouldNotify = true :=
  (oscillation_effective_period (some 0) [⟨["1.1.1.1"], 0⟩, ⟨["2.2.2.2"], 0⟩]
    ["1.1.1.1"] 59 2000000 (by decide)).mpr (by decide)

/-- C7 counterexample: the claim extends monotonicity of the stored
last-notification instant to the whole command surface, but the clear
branch of the `/dampening` command deletes `notify:<d>:last`, after
which the worker reads it as 0 — strictly below its previous value. -/
theorem lastNotify_clear_counterexample :
    readLastNotify (handleDampeningClear ⟨none, none, none, some 1000, none⟩) <
      readLastNotify ⟨none, none, none, some 1000, none⟩ := by decide

/-- C7 amended: across observer ticks the stored last-notification
instant never decreases (`checkDomain` either leaves the key alone or
advances it to `now`, which exceeds the old value by at least the base
period); only the `/dampening clear` command resets it. -/
theorem lastNotify_monotone_tick (kv : DomainKV) (res : Except String DNSResponse)
    (now : Int) :
    readLastNotify kv ≤ readLastNotify (checkDomain kv res now).1 := by
  unfold checkDomain readLastNotify
  cases res with
  | error e => exact le_refl _
  | ok dns =>
    dsimp only
    split_ifs <;>
      first
        | exact le_refl _
        | exact shouldSend_last_mono kv.notifyLast (kv.recentIPs.getD [])
            (currentIPsOf dns) (effectiveTTLOf dns) now

/-- C2 counterexample: on the very first tick of a domain whose answer
has no A records (and no SOA), the source takes the serial-change branch,
stores only `dns:<d>:serial` and never writes `dns:<d>:state` — the
stored state afterwards is absent, not `resolved`.  (No notification is
emitted, as the claim says.) -/
theorem first_tick_empty_counterexample :
    (checkDomain emptyKV (Except.ok ⟨0, some [], none⟩) 0).2 = [] ∧
    (checkDomain emptyKV (Except.ok ⟨0, some [], none⟩) 0).1.state = none ∧
    (checkDomain emptyKV (Except.ok ⟨0, some [], none⟩) 0).1.serial = some "unknown" := by
  decide

/-- C2 amended: the very first tick for a domain emits no change-type
notification (no `change` and no `update` embed); afterwards the stored
state is `no_authority` when the authority is unreachable, `resolved`
when the resolved A-record set is nonempty, and — contrary to the
original claim — still absent when the A-record set is empty. -/
theorem first_tick_silent (dns : DNSResponse) (now : Int) :
    (∀ n ∈ (checkDomain emptyKV (Except.ok dns) now).2,
        n.ntype ≠ NotifType.change ∧ n.ntype ≠ NotifType.update) ∧
    (noAuthorityOf dns = true →
      (checkDomain emptyKV (Except.ok dns) now).1.state = some "no_authority") ∧
    (noAuthorityOf dns = false → currentIPsOf dns ≠ [] →
      (checkDomain emptyKV (Except.ok dns) now).1.state = some "resolved") ∧
    (noAuthorityOf dns = false → currentIPsOf dns = [] →
      (checkDomain emptyKV (Except.ok dns) now).1.state = none) := by
  cases hna : noAuthorityOf dns with
  | true =>
    have hred : checkDomain emptyKV (Except.ok dns) now =
        ({ emptyKV with state := some "no_authority" },
         [⟨NotifType.warning, "DNS Authority Unreachable"⟩]) := by
      simp [checkDomain, hna, emptyKV]
    rw [hred]
    refine ⟨?_, fun _ => rfl, ?_, ?_⟩
    · intro n hn
      have hn2 : n = ⟨NotifType.warning, "DNS Authority Unreachable"⟩ := by
        simpa using hn
      subst hn2
      exact ⟨by decide, by decide⟩
    · intro hf; exact absurd hf (by decide)
    · intro hf; exact absurd hf (by decide)
  | false =>
    by_cases hc : currentIPsOf dns = []
    · have hred : checkDomain emptyKV (Except.ok dns) now =
          ({ emptyKV with serial := some (serialOf dns) }, []) := by
        simp [checkDomain, hna, hc, emptyKV, isFirstTime, falsyOpt, prevIPsArray, sortIPs]
      rw [hred]
      refine ⟨?_, ?_, ?_, fun _ _ => rfl⟩
      · intro n hn; exact absurd hn (List.not_mem_nil n)
      · intro hf; exact absurd hf (by decide)
      · intro _ hne; exact absurd hc hne
    · have hred : checkDomain emptyKV (Except.ok dns) now =
          ({ emptyKV with state := some "resolved",
                          ips := some (joinWith "," (currentIPsOf dns)),
                          serial := some (serialOf dns) }, []) := by
        simp [checkDomain, hna, hc, emptyKV, isFirstTime, falsyOpt, prevIPsArray, sortIPs]
      rw [hred]
      refine ⟨?_, ?_, fun _ _ => rfl, ?_⟩
      · intro n hn; exact absurd hn (List.not_mem_nil n)
      · intro hf; exact absurd hf (by decide)
      · intro _ hce; exact absurd hce hc

/-- Witness for `first_tick_silent`: a first tick with one A record
stores `resolved` and emits nothing change-typed. -/
theorem first_tick_silent_witness :
    (checkDomain emptyKV (Except.ok ⟨0, some [⟨"d", 1, some 60, "1.2.3.4"⟩], none⟩) 0).1.state
      = some "resolved" :=
  (first_tick_silent ⟨0, some [⟨"d", 1, some 60, "1.2.3.4"⟩], none⟩ 0).2.2.1
    (by decide) (by decide)

/-- C3 counterexample: the `/remove` handler deletes only the three
`dns:<d>:*` keys; the notification-tracking keys survive the removal,
contrary to the claim that no stored key for the domain remains. -/
theorem remove_keeps_notify_counterexample :
    (handleRemoveDomain ["a.com"]
        ⟨some "resolved", some "1.2.3.4", some "2024010101", some 5, some []⟩
        (some "a.com")).2.2.notifyLast = some 5 ∧
    (handleRemoveDomain ["a.com"]
        ⟨some "resolved", some "1.2.3.4", some "2024010101", some 5, some []⟩
        (some "a.com")).2.2.recentIPs = some [] := by decide

/-- C3 amended: a successful `/remove` of a dynamic domain deletes
`dns:<d>:state`, `dns:<d>:ips` and `dns:<d>:serial` but leaves
`notify:<d>:last` and `notify:<d>:recent_ips` stored (they only lapse
through their 7-day KV expiry; the separate `/remove_subdomains` handler
is the one that deletes all five keys). -/
theorem remove_deletes_dns_only (domains : List String) (kv : DomainKV)
    (input : Option String)
    (h : (handleRemoveDomain domains kv input).1 = RemoveResult.removed) :
    (handleRemoveDomain domains kv input).2.2 =
      { kv with state := none, ips := none, serial := none } := by
  cases input with
  | none => exact absurd h (by simp [handleRemoveDomain])
  | some s =>
    unfold handleRemoveDomain at h ⊢
    dsimp only at h ⊢
    split_ifs at h ⊢
    rfl

/-- Witness for `remove_deletes_dns_only` on a one-domain list. -/
theorem remove_deletes_dns_only_witness :
    (handleRemoveDomain ["a.com"]
        ⟨some "resolved", some "1.2.3.4", some "2024010101", some 5, some []⟩
        (some "a.com")).2.2 =
      { (⟨some "resolved", some "1.2.3.4", some "2024010101", some 5, some []⟩ : DomainKV)
          with state := none, ips := none, serial := none } :=
  remove_deletes_dns_only ["a.com"]
    ⟨some "resolved", some "1.2.3.4", some "2024010101", some 5, some []⟩
    (some "a.com") (by decide)

/-- C9: adding the same dynamic domain twice is idempotent — whenever a
first `/add` succeeds, running the same `/add` on the resulting list
answers `duplicate` and returns the list unchanged (the source's
duplicate branch performs no KV write). -/
theorem add_duplicate_idempotent (domains : List String) (input : Option String)
    (h : (handleAddDomain domains input).1 = AddResult.added) :
    handleAddDomain (handleAddDomain domains input).2 input =
      (AddResult.duplicate, (handleAddDomain domains input).2) := by
  cases input with
  | none => exact absurd h (by simp [handleAddDomain])
  | some s =>
    unfold handleAddDomain at h
    dsimp only at h
    by_cases h1 : (toLowerStr s == "") = true
    · rw [if_pos h1] at h; exact absurd h (by simp)
    · rw [if_neg h1] at h
      by_cases h2 : (!isValidDomain (toLowerStr s)) = true
      · rw [if_pos h2] at h; exact absurd h (by simp)
      · rw [if_neg h2] at h
        by_cases h3 : domains.contains (toLowerStr s) = true
        · rw [if_pos h3] at h; exact absurd h (by simp)
        · have hfst : handleAddDomain domains (some s)
              = (AddResult.added, domains ++ [toLowerStr s]) := by
            unfold handleAddDomain
            dsimp only
            rw [if_neg h1, if_neg h2, if_neg h3]
          rw [hfst]
          unfold handleAddDomain
          dsimp only
          have hmem : (domains ++ [toLowerStr s]).contains (toLowerStr s) = true := by
            simp
          rw [if_neg h1, if_neg h2, if_pos hmem]

/-- Witness for `add_duplicate_idempotent` starting from the empty
dynamic list. -/
theorem add_duplicate_idempotent_witness :
    handleAddDomain (handleAddDomain [] (some "example.com")).2 (some "example.com") =
      (AddResult.duplicate, (handleAddDomain [] (some "example.com")).2) :=
  add_duplicate_idempotent [] (some "example.com") (by decide)

end DNSBot
